import Mathlib

/-!
Verification development for the healthcare assessment client.

The JavaScript source is embedded shallowly:
  * JS numbers are modelled exactly: finite values as decimal rationals
    `m / 10 ^ e` (`JSNum`), compared by cross multiplication over `ℤ`, and
    the two infinities that `parseFloat` produces from a signed `Infinity`
    literal as the extra constructors of `JSFloat` (number-typed record
    fields arrive through `response.json()` and JSON has no infinities, so
    they stay finite; `NaN` is the parsers' `none`);
  * heterogeneous JS field values (number / string / null / undefined)
    become the inductive `JSValue`;
  * `parseFloat` becomes `jsParseFloat`, parsing the longest numeric prefix
    of the string (leading whitespace skipped, optional sign, integer part,
    fractional part, optional exponent) and returning `none` where JS
    returns `NaN`;
  * fallible parsers returning a value/validity-flag pair become
    `Option`-valued functions (`none` = isValid false);
  * the retry loop and the pagination loop become structural recursions
    that also record the attempts performed / requests issued, so claims
    about attempt counts and request sequences can be stated.
-/

/-- A JS number modelled as the exact decimal `m / 10 ^ e`. -/
structure JSNum where
  m : ℤ
  e : ℕ
deriving DecidableEq, Repr

instance (n : ℕ) : OfNat JSNum n := ⟨⟨(n : ℤ), 0⟩⟩

/-- Value-level order: `m₁ / 10 ^ e₁ ≤ m₂ / 10 ^ e₂` by cross multiplication. -/
instance : LE JSNum := ⟨fun a b => a.m * 10 ^ b.e ≤ b.m * 10 ^ a.e⟩

instance : LT JSNum := ⟨fun a b => a.m * 10 ^ b.e < b.m * 10 ^ a.e⟩

instance (a b : JSNum) : Decidable (a ≤ b) :=
  inferInstanceAs (Decidable (a.m * 10 ^ b.e ≤ b.m * 10 ^ a.e))

instance (a b : JSNum) : Decidable (a < b) :=
  inferInstanceAs (Decidable (a.m * 10 ^ b.e < b.m * 10 ^ a.e))

/-- A JS float as the parsers see it: a finite decimal, or one of the two
infinities that `parseFloat` produces from a signed `Infinity` literal.
`NaN` is modelled by `none` at the parse sites, matching the source's
`isNaN` checks. -/
inductive JSFloat where
  | fin (q : JSNum)
  | posInf
  | negInf
deriving DecidableEq, Repr

instance (n : ℕ) : OfNat JSFloat n := ⟨.fin ⟨(n : ℤ), 0⟩⟩

/-- Order on JS floats: finite values compare as decimals, `negInf` is
below everything, `posInf` above everything. -/
def JSFloat.le : JSFloat → JSFloat → Prop
  | .fin a, .fin b => a ≤ b
  | .negInf, _ => True
  | _, .posInf => True
  | _, _ => False

/-- Strict order on JS floats. -/
def JSFloat.lt : JSFloat → JSFloat → Prop
  | .fin a, .fin b => a < b
  | .negInf, .negInf => False
  | .negInf, _ => True
  | .fin _, .posInf => True
  | _, _ => False

instance : LE JSFloat := ⟨JSFloat.le⟩

instance : LT JSFloat := ⟨JSFloat.lt⟩

instance : ∀ a b : JSFloat, Decidable (a ≤ b)
  | .fin a, .fin b => inferInstanceAs (Decidable (a ≤ b))
  | .fin _, .posInf => .isTrue trivial
  | .fin _, .negInf => .isFalse fun h => h
  | .posInf, .fin _ => .isFalse fun h => h
  | .posInf, .posInf => .isTrue trivial
  | .posInf, .negInf => .isFalse fun h => h
  | .negInf, .fin _ => .isTrue trivial
  | .negInf, .posInf => .isTrue trivial
  | .negInf, .negInf => .isTrue trivial

instance : ∀ a b : JSFloat, Decidable (a < b)
  | .fin a, .fin b => inferInstanceAs (Decidable (a < b))
  | .fin _, .posInf => .isTrue trivial
  | .fin _, .negInf => .isFalse fun h => h
  | .posInf, .fin _ => .isFalse fun h => h
  | .posInf, .posInf => .isFalse fun h => h
  | .posInf, .negInf => .isFalse fun h => h
  | .negInf, .fin _ => .isTrue trivial
  | .negInf, .posInf => .isTrue trivial
  | .negInf, .negInf => .isFalse fun h => h

/-- A JavaScript value as it appears in patient fields: a (finite) number,
a string, `null`, or `undefined`. -/
inductive JSValue where
  | num (q : JSNum)
  | str (s : String)
  | null
  | undef
deriving DecidableEq, Repr

/-- Whitespace recognised by JS `trim` / `parseFloat`: the ECMAScript
WhiteSpace and LineTerminator characters — tab, LF, VT, FF, CR, space,
NBSP, BOM and the Unicode space separators. -/
def jsWsChar (c : Char) : Bool :=
  c = ' ' || c = '\t' || c = '\n' || c = '\r' ||
    c.toNat = 0x0B || c.toNat = 0x0C || c.toNat = 0xA0 || c.toNat = 0xFEFF ||
    c.toNat = 0x1680 || (0x2000 ≤ c.toNat && c.toNat ≤ 0x200A) ||
    c.toNat = 0x2028 || c.toNat = 0x2029 || c.toNat = 0x202F ||
    c.toNat = 0x205F || c.toNat = 0x3000

/-- Model of `String.prototype.trim`: drop whitespace from both ends. -/
def jsTrim (s : String) : String :=
  ⟨((s.data.dropWhile jsWsChar).reverse.dropWhile jsWsChar).reverse⟩

/-- Numeric value of a list of decimal digit characters. -/
def natOfDigits (ds : List Char) : ℕ :=
  ds.foldl (fun n c => 10 * n + (c.toNat - 48)) 0

/-- Model of JS `parseFloat`: skip leading whitespace, read an optional
sign, then either the literal `Infinity` — giving the signed infinity — or
the longest prefix of the form `digits[.digits][(e|E)[sign]digits]` (at
least one digit before or after the dot); `none` models the `NaN` result
when no such prefix exists. -/
def jsParseFloat (s : String) : Option JSFloat :=
  let cs := s.data.dropWhile jsWsChar
  let sgn : ℤ × List Char :=
    match cs with
    | '-' :: r => (-1, r)
    | '+' :: r => (1, r)
    | _ => (1, cs)
  match sgn.2 with
  | 'I' :: 'n' :: 'f' :: 'i' :: 'n' :: 'i' :: 't' :: 'y' :: _ =>
    some (if sgn.1 < 0 then .negInf else .posInf)
  | _ =>
    let ip := sgn.2.takeWhile Char.isDigit
    let rest1 := sgn.2.dropWhile Char.isDigit
    let fp : List Char × List Char :=
      match rest1 with
      | '.' :: r => (r.takeWhile Char.isDigit, r.dropWhile Char.isDigit)
      | _ => ([], rest1)
    if ip.isEmpty && fp.1.isEmpty then none
    else
      let mant : ℤ := sgn.1 * (natOfDigits (ip ++ fp.1) : ℤ)
      let ex : ℤ :=
        match fp.2 with
        | c :: r =>
          if c = 'e' || c = 'E' then
            let es : ℤ × List Char :=
              match r with
              | '-' :: rr => (-1, rr)
              | '+' :: rr => (1, rr)
              | _ => (1, r)
            let eds := es.2.takeWhile Char.isDigit
            if eds.isEmpty then 0 else es.1 * (natOfDigits eds : ℤ)
          else 0
        | [] => 0
      let k : ℤ := ex - (fp.1.length : ℤ)
      if 0 ≤ k then some (.fin ⟨mant * 10 ^ k.toNat, 0⟩)
      else some (.fin ⟨mant, (-k).toNat⟩)

/-- Model of JS `String.prototype.split` with separator `'/'`, over the
character list of the string. -/
def splitSlash : List Char → List (List Char)
  | [] => [[]]
  | c :: rest =>
    let r := splitSlash rest
    if c = '/' then [] :: r
    else
      match r with
      | h :: t => (c :: h) :: t
      | [] => [[c]]

/-- Source `parseBloodPressure` (src/unnamed/part_000 lines 11-37, duplicated
in risk-analyzer.js lines 199-223): non-strings and falsy values are invalid;
the trimmed string must not be empty, "null" or "undefined"; it must split on
`'/'` into exactly two segments; each segment must `parseFloat` to a value
(possibly an infinity) that is strictly positive. `some (systolic,
diastolic)` models the valid result, `none` the invalid one. -/
def parseBloodPressure : JSValue → Option (JSFloat × JSFloat)
  | .str s =>
    if s = "" then none
    else
      let t := jsTrim s
      if t = "" || t = "null" || t = "undefined" then none
      else
        match splitSlash t.data with
        | [p1, p2] =>
          match jsParseFloat ⟨p1⟩, jsParseFloat ⟨p2⟩ with
          | some sys, some dia =>
            if sys ≤ 0 ∨ dia ≤ 0 then none else some (sys, dia)
          | _, _ => none
        | _ => none
  | _ => none

/-- Source `parseTemperature` (src/unnamed/part_000 lines 75-106): numbers
are valid iff `0 < t ≤ 120`; strings are trimmed, must not be empty /
"null" / "undefined", must `parseFloat`, and the parsed value must satisfy
the same range; anything else is invalid. -/
def parseTemperature : JSValue → Option JSFloat
  | .null => none
  | .undef => none
  | .num q => if 0 < JSFloat.fin q ∧ JSFloat.fin q ≤ 120 then some (.fin q) else none
  | .str s =>
    let t := jsTrim s
    if t = "" || t = "null" || t = "undefined" then none
    else
      match jsParseFloat t with
      | none => none
      | some q => if 0 < q ∧ q ≤ 120 then some q else none

/-- Source `parseAge` (src/unnamed/part_000 lines 130-159): same shape as
`parseTemperature` with range `0 < a ≤ 150`. -/
def parseAge : JSValue → Option JSFloat
  | .null => none
  | .undef => none
  | .num q => if 0 < JSFloat.fin q ∧ JSFloat.fin q ≤ 150 then some (.fin q) else none
  | .str s =>
    let t := jsTrim s
    if t = "" || t = "null" || t = "undefined" then none
    else
      match jsParseFloat t with
      | none => none
      | some q => if 0 < q ∧ q ≤ 150 then some q else none


/-! ### Lexicographic order on identifiers and JS `Array.prototype.sort` -/

/-- Lexicographic comparison of character lists by code point, the order JS
`Array.prototype.sort` uses on the (ASCII) patient identifiers. -/
def charListLe : List Char → List Char → Bool
  | [], _ => true
  | _ :: _, [] => false
  | a :: as, b :: bs =>
    if a.toNat < b.toNat then true
    else if b.toNat < a.toNat then false
    else charListLe as bs

/-- Lexicographic comparison of strings. -/
def strLe (a b : String) : Bool :=
  charListLe a.data b.data

def charListLe_total : ∀ as bs, charListLe as bs = true ∨ charListLe bs as = true
  | [], _ => Or.inl rfl
  | _ :: _, [] => Or.inr rfl
  | a :: as, b :: bs => by
    rcases Nat.lt_trichotomy a.toNat b.toNat with h | h | h
    · left; simp [charListLe, h]
    · rcases charListLe_total as bs with ih | ih
      · left; simp [charListLe, h, ih]
      · right; simp [charListLe, h.symm, ih]
    · right; simp [charListLe, h]

def charListLe_trans :
    ∀ as bs cs, charListLe as bs = true → charListLe bs cs = true →
      charListLe as cs = true
  | [], _, _ => by intro _ _; rfl
  | _ :: _, [], _ => by intro h _; simp [charListLe] at h
  | _ :: _, _ :: _, [] => by intro _ h; simp [charListLe] at h
  | a :: as, b :: bs, c :: cs => by
    intro h1 h2
    simp only [charListLe] at h1 h2 ⊢
    rcases Nat.lt_trichotomy a.toNat b.toNat with hab | hab | hab
    · rcases Nat.lt_trichotomy b.toNat c.toNat with hbc | hbc | hbc
      · simp [Nat.lt_trans hab hbc]
      · simp [hbc ▸ hab]
      · simp [Nat.lt_asymm hbc, hbc] at h2
    · rcases Nat.lt_trichotomy b.toNat c.toNat with hbc | hbc | hbc
      · simp [hab ▸ hbc]
      · have hac : a.toNat = c.toNat := hab.trans hbc
        simp [hab, Nat.lt_irrefl] at h1
        simp [hbc, Nat.lt_irrefl] at h2
        simp [hac, Nat.lt_irrefl, charListLe_trans as bs cs h1 h2]
      · simp [Nat.lt_asymm hbc, hbc] at h2
    · simp [Nat.lt_asymm hab, hab] at h1

/-- The propositional order used to state sortedness of identifier lists. -/
def strLeP (a b : String) : Prop := strLe a b = true

instance : DecidableRel strLeP := fun a b => instDecidableEqBool (strLe a b) true

instance : IsTotal String strLeP := ⟨fun a b => charListLe_total a.data b.data⟩

instance : IsTrans String strLeP :=
  ⟨fun a b c => charListLe_trans a.data b.data c.data⟩

/-- Model of JS `results.sort()` on identifier lists: sort lexicographically. -/
def sortIds (l : List String) : List String :=
  List.insertionSort strLeP l



/-! ### Patients, scoring rubric and derived predicates -/

/-- A raw patient record: the identity key plus the three vital fields,
each of which may be a number, a string, `null` or `undefined`. -/
structure Patient where
  patient_id : String
  blood_pressure : JSValue
  temperature : JSValue
  age : JSValue
deriving DecidableEq, Repr

/-- config.js `THRESHOLDS.HIGH_RISK_SCORE`. -/
def HIGH_RISK_SCORE : ℕ := 4

/-- config.js `THRESHOLDS.FEVER_TEMPERATURE` (99.6). -/
def FEVER_TEMPERATURE : JSFloat := .fin ⟨996, 1⟩

/-- Source `calculateBloodPressureRisk` (src/unnamed/part_000 lines 42-70):
invalid input scores 0; otherwise the score is initialised to Normal (1),
then the Stage 2 / Stage 1 / Elevated / Normal branches are tried in order
and the first matching one assigns the score; the trailing `else 1` models
the initial value surviving when no branch matches. -/
def calculateBloodPressureRisk (v : JSValue) : ℕ :=
  match parseBloodPressure v with
  | none => 0
  | some sd =>
    if 140 ≤ sd.1 ∨ 90 ≤ sd.2 then 4
    else if (130 ≤ sd.1 ∧ sd.1 ≤ 139) ∨ (80 ≤ sd.2 ∧ sd.2 ≤ 89) then 3
    else if 120 ≤ sd.1 ∧ sd.1 ≤ 129 ∧ sd.2 < 80 then 2
    else if sd.1 < 120 ∧ sd.2 < 80 then 1
    else 1

/-- Source `calculateTemperatureRisk` (src/unnamed/part_000 lines 111-125). -/
def calculateTemperatureRisk (v : JSValue) : ℕ :=
  match parseTemperature v with
  | none => 0
  | some t => if 101 ≤ t then 2 else if FEVER_TEMPERATURE ≤ t then 1 else 0

/-- Source `calculateAgeRisk` (src/unnamed/part_000 lines 164-178). -/
def calculateAgeRisk (v : JSValue) : ℕ :=
  match parseAge v with
  | none => 0
  | some a => if 65 < a then 2 else if 40 ≤ a then 1 else 1

/-- Source `calculateTotalRiskScore` (src/unnamed/part_000 lines 183-189). -/
def calculateTotalRiskScore (p : Patient) : ℕ :=
  calculateBloodPressureRisk p.blood_pressure +
    calculateTemperatureRisk p.temperature + calculateAgeRisk p.age

/-- Source `hasDataQualityIssues` (src/unnamed/part_000 lines 194-200):
true iff at least one of the three fields fails to parse. -/
def hasDataQualityIssues (p : Patient) : Bool :=
  (parseBloodPressure p.blood_pressure).isNone ||
    (parseTemperature p.temperature).isNone || (parseAge p.age).isNone

/-- Source `hasFever` (src/unnamed/part_000 lines 205-208): temperature
parsed successfully and at least the fever threshold. -/
def hasFever (p : Patient) : Bool :=
  match parseTemperature p.temperature with
  | none => false
  | some t => decide (FEVER_TEMPERATURE ≤ t)

/-- Source `isHighRisk` (src/unnamed/part_000 lines 213-216). -/
def isHighRisk (p : Patient) : Bool :=
  decide (HIGH_RISK_SCORE ≤ calculateTotalRiskScore p)

/-! ### The batch analyzer -/

/-- The three identifier lists produced by `RiskAnalyzer.analyze`. -/
structure AnalysisResults where
  highRiskPatients : List String
  feverPatients : List String
  dataQualityIssues : List String
deriving DecidableEq, Repr

/-- The loop body of `RiskAnalyzer.analyze` (src/risk-analyzer.js lines
56-74), as a structural recursion over the patient sequence: a patient with
data-quality issues contributes its identifier to the data-quality list only
(the loop `continue`s); otherwise the fever and high-risk checks run
independently and each may contribute the identifier to its list. -/
def processPatients : List Patient → List String × List String × List String
  | [] => ([], [], [])
  | p :: rest =>
    let r := processPatients rest
    if hasDataQualityIssues p then (r.1, r.2.1, p.patient_id :: r.2.2)
    else
      ((if isHighRisk p then p.patient_id :: r.1 else r.1),
       (if hasFever p then p.patient_id :: r.2.1 else r.2.1),
       r.2.2)

/-- Source `RiskAnalyzer.analyze` (src/risk-analyzer.js lines 47-87): reset
the result lists, run the loop over all patients, then sort each list. -/
def analyze (ps : List Patient) : AnalysisResults :=
  let r := processPatients ps
  ⟨sortIds r.1, sortIds r.2.1, sortIds r.2.2⟩

/-! ### The resilient fetcher: retry loop, request classification, pagination -/

/-- config.js `CONFIG.RETRY_ATTEMPTS`. -/
def RETRY_ATTEMPTS : ℕ := 3

/-- config.js `CONFIG.RETRY_DELAY` (milliseconds). -/
def RETRY_DELAY : ℕ := 1000

/-- config.js `CONFIG.MAX_LIMIT`. -/
def MAX_LIMIT : ℕ := 20

/-- The body of the `retryWithBackoff` loop (src/unnamed/part_000 lines
221-235). `fn i` is the outcome of the wrapped operation on its `i`-th
invocation (1-based). The second argument counts the attempts that remain,
current one included, so `remaining = 1` models the source's
`attempt === maxAttempts` test. The result carries the value returned or
error thrown (`none` models the `undefined` a zero-attempt budget returns),
the number of attempts performed, and the backoff delays slept between
attempts (`baseDelay * 2 ^ (attempt - 1)` after failed attempt `attempt`). -/
def retryGo (fn : ℕ → Except ε α) (baseDelay attempt : ℕ) :
    ℕ → Option (Except ε α) × ℕ × List ℕ
  | 0 => (none, 0, [])
  | remaining + 1 =>
    match fn attempt with
    | .ok a => (some (.ok a), 1, [])
    | .error e =>
      if remaining = 0 then (some (.error e), 1, [])
      else
        let r := retryGo fn baseDelay (attempt + 1) remaining
        (r.1, r.2.1 + 1, baseDelay * 2 ^ (attempt - 1) :: r.2.2)

/-- Source `retryWithBackoff` (src/unnamed/part_000 lines 221-235): run the
loop starting at attempt 1 with the full attempt budget. -/
def retryWithBackoff (fn : ℕ → Except ε α) (maxAttempts baseDelay : ℕ) :
    Option (Except ε α) × ℕ × List ℕ :=
  retryGo fn baseDelay 1 maxAttempts

deriving instance DecidableEq for Except

/-- The transport-level outcome of one `fetch` call: an HTTP response with
a status code and an already-parsed body, or a network-level failure. -/
inductive FetchOutcome (α : Type) where
  | resp (status : ℕ) (body : α)
  | netErr (msg : String)
deriving DecidableEq, Repr

/-- The errors the request closure in `makeRequest` can throw, keyed the way
the source distinguishes them by message text. -/
inductive ReqError where
  | rateLimited
  | serverError (status : ℕ)
  | requestFailed (msg : String)
deriving DecidableEq, Repr

/-- The classification the request closure in `makeRequest`
(src/api-client.js lines 31-59) applies to one fetch outcome: 429 throws
`Rate limited` (after an extra fixed rate-limit sleep, not tracked here);
status ≥ 500 throws `Server error`; any other non-2xx status throws an
`HTTP error` that the closure's catch block rewraps as `Request failed`
because its message matches neither retryable pattern; a 2xx response
returns the body; a network failure is likewise rewrapped as
`Request failed`. -/
def classifyResponse : FetchOutcome α → Except ReqError α
  | .resp status body =>
    if status = 429 then .error .rateLimited
    else if 500 ≤ status then .error (.serverError status)
    else if ¬ (200 ≤ status ∧ status ≤ 299) then
      .error (.requestFailed ("Request failed: HTTP error: " ++ toString status))
    else .ok body
  | .netErr msg => .error (.requestFailed ("Request failed: " ++ msg))

/-- Source `makeRequest` (src/api-client.js lines 21-60): wrap the
classified fetch in `retryWithBackoff` with the configured attempt count
and base delay. `outcomes i` is the transport outcome of the `i`-th fetch. -/
def makeRequest (outcomes : ℕ → FetchOutcome α) (maxAttempts baseDelay : ℕ) :
    Option (Except ReqError α) × ℕ × List ℕ :=
  retryWithBackoff (fun i => classifyResponse (outcomes i)) maxAttempts baseDelay

/-- The pagination metadata of a page response. -/
structure Pagination where
  hasNext : Bool
deriving DecidableEq, Repr

/-- A successful (2xx) page response body: `data` is `some` records when the
body carries an array-valued `data` field (`none` models an absent or
non-array field), and `pagination` likewise may be absent. -/
structure PageResponse (α : Type) where
  data : Option (List α)
  pagination : Option Pagination
deriving DecidableEq, Repr

/-- Source `getPatients` (src/api-client.js lines 65-72): the limit query
parameter actually sent is the requested limit capped at `MAX_LIMIT`. -/
def getPatientsLimit (limit : ℕ) : ℕ :=
  min limit MAX_LIMIT

/-- The `while (hasNext)` loop of `getAllPatients` (src/api-client.js lines
84-110), as a fuel recursion over successful page responses: append the
page's records when a data array is present; read `hasNext` from the
pagination object when present, otherwise stop; on `hasNext` move to the
next page. Also records each request issued as a (page, limit) pair;
`none` models a traversal that does not finish within `fuel` pages. -/
def getAllPatientsGo (pages : ℕ → PageResponse α) (current : ℕ)
    (acc : List α) (reqs : List (ℕ × ℕ)) : ℕ → Option (List α × List (ℕ × ℕ))
  | 0 => none
  | fuel + 1 =>
    let resp := pages current
    let reqs2 := reqs ++ [(current, getPatientsLimit MAX_LIMIT)]
    let acc2 :=
      match resp.data with
      | some d => acc ++ d
      | none => acc
    match resp.pagination with
    | some pg =>
      if pg.hasNext then getAllPatientsGo pages (current + 1) acc2 reqs2 fuel
      else some (acc2, reqs2)
    | none => some (acc2, reqs2)

/-- Source `getAllPatients` (src/api-client.js lines 77-114): start at page
1 with an empty accumulator, requesting `MAX_LIMIT` records per page. -/
def getAllPatients (pages : ℕ → PageResponse α) (fuel : ℕ) :
    Option (List α × List (ℕ × ℕ)) :=
  getAllPatientsGo pages 1 [] [] fuel

/-! ### Statement-side definitions and concrete inputs used by the claims -/

/-- The blood-pressure scoring cascade exactly as the specification words it:
first match wins in descending severity — Stage 2 (systolic ≥ 140 OR
diastolic ≥ 90) = 4, Stage 1 (systolic in [130,139] OR diastolic in
[80,89]) = 3, Elevated (systolic in [120,129] AND diastolic < 80) = 2,
Normal (systolic < 120 AND diastolic < 80) = 1 — and every valid pair
matching none of the four named bands also scores 1 as the Normal
fallback. -/
def bloodPressureScoreSpec (sys dia : JSFloat) : ℕ :=
  if 140 ≤ sys ∨ 90 ≤ dia then 4
  else if (130 ≤ sys ∧ sys ≤ 139) ∨ (80 ≤ dia ∧ dia ≤ 89) then 3
  else if 120 ≤ sys ∧ sys ≤ 129 ∧ dia < 80 then 2
  else if sys < 120 ∧ dia < 80 then 1
  else 1

/-- A clean-data patient that is both feverish and high-risk
(bp 160/100 scores 4, temperature 103 scores 2, age 75 scores 2). -/
def feverHighPatient : Patient :=
  ⟨"P1", .str "160/100", .str "103.0", .num ⟨75, 0⟩⟩

/-- A patient whose blood-pressure field fails to parse. -/
def dirtyPatient : Patient :=
  ⟨"D1", .str "INVALID", .str "98.6", .num ⟨30, 0⟩⟩

/-- An operation that fails retryably on attempts 1 and 2 and succeeds on
attempt 3, used to instantiate the retry-policy theorem. -/
def retryDemoFn (i : ℕ) : Except ℕ ℕ :=
  if i ≤ 2 then .error 0 else .ok 7

/-- A two-page mock server: page 1 reports a next page, page 2 does not. -/
def twoPages : ℕ → PageResponse ℕ := fun n =>
  if n = 1 then ⟨some [10, 11], some ⟨true⟩⟩ else ⟨some [12], some ⟨false⟩⟩

/-- The per-page data arrays `twoPages` serves. -/
def twoPagesData : List (List ℕ) := [[10, 11], [12]]

/-- A mock server whose first page carries no data array but reports a next
page, and whose second page lacks the pagination object entirely. -/
def oddPages : ℕ → PageResponse ℕ := fun n =>
  if n = 1 then ⟨none, some ⟨true⟩⟩ else ⟨some [7], none⟩

/-! ### General lemmas about the embedded operations -/

example : jsParseFloat "98.6" = some (.fin ⟨986, 1⟩) := by decide
example : jsParseFloat "150abc" = some (.fin ⟨150, 0⟩) := by decide
example : jsParseFloat "INVALID" = none := by decide
example : jsParseFloat "1.5e2" = some (.fin ⟨150, 0⟩) := by decide
example : jsParseFloat "Infinity" = some .posInf := by decide
example : jsParseFloat "-Infinity99" = some .negInf := by decide
example : jsParseFloat "infinity" = none := by decide
example : parseBloodPressure (.str "120/80") = some (.fin ⟨120, 0⟩, .fin ⟨80, 0⟩) := by decide
example : parseBloodPressure (.str "150/") = none := by decide
example : parseBloodPressure (.str "150abc/90") = some (.fin ⟨150, 0⟩, .fin ⟨90, 0⟩) := by decide
example : parseBloodPressure (.str "Infinity/90") = some (.posInf, .fin ⟨90, 0⟩) := by decide
example : calculateBloodPressureRisk (.str "Infinity/90") = 4 := by decide
example : parseBloodPressure (.str "\u000B150/90") = some (.fin ⟨150, 0⟩, .fin ⟨90, 0⟩) := by decide
example : parseTemperature (.num ⟨103, 0⟩) = some (.fin ⟨103, 0⟩) := by decide
example : parseTemperature (.str " 98.6 ") = some (.fin ⟨986, 1⟩) := by decide
example : parseTemperature (.str "Infinity") = none := by decide
example : parseAge (.str "fifty-three") = none := by decide

theorem mem_sortIds {a : String} {l : List String} : a ∈ sortIds l ↔ a ∈ l :=
  (List.perm_insertionSort strLeP l).mem_iff

theorem sortIds_sorted (l : List String) : List.Sorted strLeP (sortIds l) :=
  List.sorted_insertionSort strLeP l

theorem sortIds_nodup {l : List String} (h : l.Nodup) : (sortIds l).Nodup :=
  ((List.perm_insertionSort strLeP l).nodup_iff).mpr h

/-- The analyzer loop computes exactly the filter/map characterisation:
data-quality identifiers are those of patients with issues; the fever and
high-risk lists take identifiers of issue-free patients satisfying the
respective predicate. -/
theorem processPatients_eq (ps : List Patient) :
    processPatients ps =
      ((ps.filter fun p => !hasDataQualityIssues p && isHighRisk p).map Patient.patient_id,
       (ps.filter fun p => !hasDataQualityIssues p && hasFever p).map Patient.patient_id,
       (ps.filter fun p => hasDataQualityIssues p).map Patient.patient_id) := by
  induction ps with
  | nil => rfl
  | cons p rest ih =>
    by_cases hq : hasDataQualityIssues p = true
    · simp [processPatients, ih, hq, List.filter_cons]
    · simp only [Bool.not_eq_true] at hq
      by_cases hh : isHighRisk p = true <;> by_cases hf : hasFever p = true <;>
        simp [processPatients, ih, hq, hh, hf, List.filter_cons]

example :
    analyze [⟨"P2", .str "160/100", .str "103.0", .num ⟨75, 0⟩⟩,
             ⟨"P1", .str "INVALID", .str "98.6", .num ⟨30, 0⟩⟩] =
      ⟨["P2"], ["P2"], ["P1"]⟩ := by decide

example :
    getAllPatients
      (fun n =>
        if n = 1 then ⟨some [10, 11], some ⟨true⟩⟩
        else ⟨some [12], some ⟨false⟩⟩)
      5 = some ([10, 11, 12], [(1, 20), (2, 20)]) := by decide

example :
    makeRequest (fun _ => FetchOutcome.resp 404 0) 3 1000 =
      (some (.error (.requestFailed "Request failed: HTTP error: 404")), 3,
        [1000, 2000]) := by decide

theorem JSNum.not_le_iff {a b : JSNum} : ¬ a ≤ b ↔ b < a := by
  show ¬ (a.m * 10 ^ b.e ≤ b.m * 10 ^ a.e) ↔ b.m * 10 ^ a.e < a.m * 10 ^ b.e
  exact not_le

/-- A JS float that fails the source's `value <= 0` test is strictly
positive (this covers the positive infinity, which also passes it). -/
theorem JSFloat.pos_of_not_nonpos : ∀ {a : JSFloat}, ¬ a ≤ 0 → 0 < a
  | .fin _, h => JSNum.not_le_iff.mp h
  | .posInf, _ => trivial
  | .negInf, h => absurd trivial h

/-- `parseFloat` never succeeds on the reserved strings the parsers screen
out, so a successful parse of the trimmed field implies the screen passed. -/
theorem jsParseFloat_ne_reserved {t : String} {q : JSFloat}
    (h : jsParseFloat t = some q) : t ≠ "" ∧ t ≠ "null" ∧ t ≠ "undefined" := by
  refine ⟨?_, ?_, ?_⟩ <;> rintro rfl <;>
    rw [show jsParseFloat _ = none from by decide] at h <;> exact Option.noConfusion h

/-- A valid blood-pressure parse yields strictly positive readings. -/
theorem parseBloodPressure_pos {v : JSValue} {sys dia : JSFloat}
    (h : parseBloodPressure v = some (sys, dia)) : 0 < sys ∧ 0 < dia := by
  cases v with
  | str s =>
    simp only [parseBloodPressure] at h
    repeat' split at h
    any_goals exact Option.noConfusion h
    next hpos =>
      rw [not_or] at hpos
      simp only [Option.some.injEq, Prod.mk.injEq] at h
      obtain ⟨rfl, rfl⟩ := h
      exact ⟨JSFloat.pos_of_not_nonpos hpos.1, JSFloat.pos_of_not_nonpos hpos.2⟩
  | num q => exact absurd h (by simp [parseBloodPressure])
  | null => exact absurd h (by simp [parseBloodPressure])
  | undef => exact absurd h (by simp [parseBloodPressure])

/-- One unfolding of the retry loop after a failed attempt that leaves at
least one further attempt in the budget. -/
theorem retryGo_step {ε α : Type} (fn : ℕ → Except ε α) (d attempt n : ℕ)
    {e : ε} (he : fn attempt = Except.error e) :
    retryGo fn d attempt (n + 2) =
      ((retryGo fn d (attempt + 1) (n + 1)).1,
       (retryGo fn d (attempt + 1) (n + 1)).2.1 + 1,
       d * 2 ^ (attempt - 1) :: (retryGo fn d (attempt + 1) (n + 1)).2.2) := by
  conv_lhs => rw [retryGo]
  rw [he]
  simp

/-- When every attempt before the last of the budget fails, the loop runs
the whole budget and returns whatever the final attempt produced (its value
if it succeeds, its error if it throws). -/
theorem retryGo_last {ε α : Type} (fn : ℕ → Except ε α) (d : ℕ) :
    ∀ (n attempt : ℕ),
      (∀ i, attempt ≤ i → i < attempt + n → ∃ e, fn i = Except.error e) →
      (retryGo fn d attempt (n + 1)).1 = some (fn (attempt + n)) ∧
        (retryGo fn d attempt (n + 1)).2.1 = n + 1
  | 0, attempt, _ => by
    cases hfa : fn attempt <;> simp [retryGo, hfa]
  | n + 1, attempt, hfail => by
    obtain ⟨e, he⟩ := hfail attempt le_rfl (by omega)
    have ih := retryGo_last fn d n (attempt + 1)
      (fun i hi1 hi2 => hfail i (by omega) (by omega))
    have harith : attempt + 1 + n = attempt + (n + 1) := by omega
    rw [harith] at ih
    rw [retryGo_step fn d attempt n he]
    exact ⟨ih.1, by simp [ih.2]⟩

/-- A traversal over a server that serves the data arrays `ds` on
consecutive pages from `start`, reporting a next page on every page but the
last, appends exactly `ds`' concatenation and requests exactly those pages
with the capped limit. -/
theorem getAllPatientsGo_run {α : Type} (pages : ℕ → PageResponse α) :
    ∀ (ds : List (List α)) (start : ℕ) (acc : List α) (reqs : List (ℕ × ℕ)),
      (∀ i, i < ds.length →
        pages (start + i) = ⟨some (ds.getD i []), some ⟨decide (i + 1 < ds.length)⟩⟩) →
      ds ≠ [] →
      getAllPatientsGo pages start acc reqs ds.length =
        some (acc ++ ds.flatten,
          reqs ++ (List.range ds.length).map fun i => (start + i, MAX_LIMIT))
  | [], _, _, _, _, hne => absurd rfl hne
  | [d], start, acc, reqs, hp, _ => by
    have h0 := hp 0 (by simp)
    simp only [Nat.add_zero, List.getD_cons_zero, List.length_cons, List.length_nil] at h0
    norm_num at h0
    simp [getAllPatientsGo, h0, getPatientsLimit, MAX_LIMIT, List.range_succ]
  | d :: e :: rest, start, acc, reqs, hp, _ => by
    have h0 := hp 0 (by simp)
    have hnext : (decide (0 + 1 < (d :: e :: rest).length)) = true := by simp
    rw [hnext] at h0
    simp only [Nat.add_zero, List.getD_cons_zero] at h0
    have ih := getAllPatientsGo_run pages (e :: rest) (start + 1) (acc ++ d)
      (reqs ++ [(start, MAX_LIMIT)])
      (fun i hi => by
        have h := hp (i + 1) (by simpa using Nat.succ_lt_succ hi)
        have harith : start + (i + 1) = start + 1 + i := by omega
        have hdec : decide (i + 1 + 1 < (d :: e :: rest).length) =
            decide (i + 1 < (e :: rest).length) := by
          simp only [List.length_cons]
          exact decide_eq_decide.mpr (by omega)
        rw [harith, hdec] at h
        simpa using h)
      (by simp)
    have harw : getAllPatientsGo pages start acc reqs (d :: e :: rest).length =
        getAllPatientsGo pages (start + 1) (acc ++ d) (reqs ++ [(start, MAX_LIMIT)])
          (e :: rest).length := by
      show getAllPatientsGo pages start acc reqs ((e :: rest).length + 1) = _
      rw [getAllPatientsGo, h0]
      simp [getPatientsLimit, MAX_LIMIT]
    rw [harw, ih]
    conv_rhs => rw [show (d :: e :: rest).length = (e :: rest).length + 1 from rfl,
      List.range_succ_eq_map]
    simp only [List.flatten_cons, List.map_cons, List.map_map, Function.comp_def,
      Nat.add_zero, List.append_assoc, List.singleton_append, Option.some.injEq,
      Prod.mk.injEq, List.cons.injEq, true_and]
    congr 1
    congr 1
    apply List.map_congr_left
    intro i _
    congr 1
    omega

/-! ### The claims -/

/-- C1: the claim says a non-retryable error (an HTTP status neither 429 nor
≥ 500, or a network failure) propagates immediately, without further
attempts or backoff delays. The code does not: `retryWithBackoff` retries
every error. Evaluated at the failing input — every fetch returns HTTP 404
with the configured budget of 3 attempts — `makeRequest` performs 3
attempts and sleeps the two backoff delays before finally throwing the
wrapped error. -/
theorem makeRequest_404_three_attempts :
    makeRequest (fun _ => FetchOutcome.resp 404 0) RETRY_ATTEMPTS RETRY_DELAY =
      (some (.error (.requestFailed "Request failed: HTTP error: 404")), 3,
        [1000, 2000]) := by decide

/-- C2 counterexample: a clean-data patient that is both feverish and
high-risk appears in two of the three result sets at once, so an identifier
is not confined to at most one set. -/
theorem analyze_overlap_counterexample :
    "P1" ∈ (analyze [feverHighPatient]).highRiskPatients ∧
      "P1" ∈ (analyze [feverHighPatient]).feverPatients := by decide

/-- C2 (amended): mutual exclusivity holds only between the data-quality
set and the other two — when the input identifiers are pairwise distinct,
an identifier in the data-quality set is in neither the high-risk nor the
fever set; the high-risk and fever sets themselves may overlap. -/
theorem analyze_dq_exclusive (ps : List Patient)
    (h : (ps.map Patient.patient_id).Nodup) (a : String)
    (ha : a ∈ (analyze ps).dataQualityIssues) :
    a ∉ (analyze ps).highRiskPatients ∧ a ∉ (analyze ps).feverPatients := by
  have key : ∀ c : Patient → Bool,
      a ∈ sortIds ((ps.filter c).map Patient.patient_id) →
      ∃ p, p ∈ ps ∧ c p = true ∧ p.patient_id = a := by
    intro c hc
    rcases List.mem_map.mp (mem_sortIds.mp hc) with ⟨p, hpmem, hpa⟩
    exact ⟨p, (List.mem_filter.mp hpmem).1, (List.mem_filter.mp hpmem).2, hpa⟩
  obtain ⟨p, hpm, hpdq, hpa⟩ :=
    key _ (by simpa [analyze, processPatients_eq] using ha)
  constructor <;> intro hcon
  · obtain ⟨p2, hqm, hq2, hqa⟩ :=
      key _ (by simpa [analyze, processPatients_eq] using hcon)
    have heq : p = p2 :=
      List.inj_on_of_nodup_map h hpm hqm (hpa.trans hqa.symm)
    subst heq
    simp [hpdq] at hq2
  · obtain ⟨p2, hqm, hq2, hqa⟩ :=
      key _ (by simpa [analyze, processPatients_eq] using hcon)
    have heq : p = p2 :=
      List.inj_on_of_nodup_map h hpm hqm (hpa.trans hqa.symm)
    subst heq
    simp [hpdq] at hq2

/-- C2 witness: on a concrete two-patient run with distinct identifiers,
the data-quality identifier is in neither of the other sets. -/
theorem analyze_dq_exclusive_witness :
    "D1" ∉ (analyze [dirtyPatient, feverHighPatient]).highRiskPatients ∧
      "D1" ∉ (analyze [dirtyPatient, feverHighPatient]).feverPatients :=
  analyze_dq_exclusive [dirtyPatient, feverHighPatient] (by decide) "D1" (by decide)

/-- C3 counterexample: two input records carrying the same `patient_id` and
the same data-quality issue put that identifier into the data-quality list
twice, so the collection is not duplicate-free for duplicate inputs. -/
theorem analyze_duplicate_ids_counterexample :
    (analyze [dirtyPatient, dirtyPatient]).dataQualityIssues = ["D1", "D1"] ∧
      ¬ (analyze [dirtyPatient, dirtyPatient]).dataQualityIssues.Nodup := by decide

/-- C3 (amended): each of the three result collections is always sorted
lexicographically; it is duplicate-free whenever the input records carry
pairwise distinct identifiers (distinct records sharing an identifier can
produce duplicates). -/
theorem analyze_sorted_nodup (ps : List Patient) :
    (List.Sorted strLeP (analyze ps).highRiskPatients ∧
      List.Sorted strLeP (analyze ps).feverPatients ∧
      List.Sorted strLeP (analyze ps).dataQualityIssues) ∧
    ((ps.map Patient.patient_id).Nodup →
      (analyze ps).highRiskPatients.Nodup ∧
        (analyze ps).feverPatients.Nodup ∧
        (analyze ps).dataQualityIssues.Nodup) := by
  constructor
  · exact ⟨sortIds_sorted _, sortIds_sorted _, sortIds_sorted _⟩
  · intro h
    have hpe := processPatients_eq ps
    refine ⟨?_, ?_, ?_⟩ <;>
      · simp only [analyze, hpe]
        exact sortIds_nodup
          (List.Nodup.sublist ((List.filter_sublist _).map _) h)

/-- C3 witness: the sortedness and duplicate-freedom at a concrete
two-patient run with distinct identifiers. -/
theorem analyze_sorted_nodup_witness :
    List.Sorted strLeP (analyze [dirtyPatient, feverHighPatient]).feverPatients ∧
      (analyze [dirtyPatient, feverHighPatient]).dataQualityIssues.Nodup :=
  ⟨(analyze_sorted_nodup [dirtyPatient, feverHighPatient]).1.2.1,
    ((analyze_sorted_nodup [dirtyPatient, feverHighPatient]).2 (by decide)).2.2⟩

/-- C4: for every valid blood-pressure pair both readings are strictly
positive, and the computed score is exactly the specification's cascade —
first match in descending severity through Stage 2, Stage 1, Elevated,
Normal, with every valid pair matching none of the four bands (such as
systolic 139.5 with diastolic below 80) scoring 1 as the Normal fallback. -/
theorem calculateBloodPressureRisk_rubric (v : JSValue) (sys dia : JSFloat)
    (h : parseBloodPressure v = some (sys, dia)) :
    0 < sys ∧ 0 < dia ∧
      calculateBloodPressureRisk v = bloodPressureScoreSpec sys dia := by
  obtain ⟨h1, h2⟩ := parseBloodPressure_pos h
  refine ⟨h1, h2, ?_⟩
  simp [calculateBloodPressureRisk, h, bloodPressureScoreSpec]

/-- C4 witness: the fallback example from the claim — systolic 139.5 with
diastolic 75 matches none of the four bands and scores 1. -/
theorem calculateBloodPressureRisk_rubric_witness :
    (0 < JSFloat.fin ⟨1395, 1⟩ ∧ 0 < JSFloat.fin ⟨75, 0⟩ ∧
      calculateBloodPressureRisk (.str "139.5/75") =
        bloodPressureScoreSpec (.fin ⟨1395, 1⟩) (.fin ⟨75, 0⟩)) ∧
    calculateBloodPressureRisk (.str "139.5/75") = 1 :=
  ⟨calculateBloodPressureRisk_rubric (.str "139.5/75") (.fin ⟨1395, 1⟩)
      (.fin ⟨75, 0⟩) (by decide),
    by decide⟩

/-- C5: the three result sets of `analyze` are exactly — data-quality: the
identifiers of patients with a data-quality issue (such a patient's
identifier goes nowhere else, the loop skips its other checks); fever and
high-risk: the identifiers of issue-free patients satisfying the respective
predicate, decided independently, so a clean patient satisfying both
appears in both. -/
theorem analyze_partition (ps : List Patient) :
    (analyze ps).dataQualityIssues =
      sortIds ((ps.filter fun p => hasDataQualityIssues p).map Patient.patient_id) ∧
    (analyze ps).feverPatients =
      sortIds ((ps.filter fun p =>
        !hasDataQualityIssues p && hasFever p).map Patient.patient_id) ∧
    (analyze ps).highRiskPatients =
      sortIds ((ps.filter fun p =>
        !hasDataQualityIssues p && isHighRisk p).map Patient.patient_id) := by
  simp [analyze, processPatients_eq]

/-- C6: with a positive attempt budget, an operation failing on every
attempt before the last and succeeding on the last yields the successful
result after exactly the budgeted number of attempts; an operation failing
on every attempt of the budget yields the last attempt's error after
exactly the budgeted number of attempts. -/
theorem retryWithBackoff_policy {ε α : Type} (fn : ℕ → Except ε α)
    (m d : ℕ) (hm : 1 ≤ m) :
    (∀ a, (∀ i, 1 ≤ i → i < m → ∃ e, fn i = Except.error e) →
      fn m = Except.ok a →
      (retryWithBackoff fn m d).1 = some (Except.ok a) ∧
        (retryWithBackoff fn m d).2.1 = m) ∧
    (∀ e, (∀ i, 1 ≤ i → i < m → ∃ e2, fn i = Except.error e2) →
      fn m = Except.error e →
      (retryWithBackoff fn m d).1 = some (Except.error e) ∧
        (retryWithBackoff fn m d).2.1 = m) := by
  obtain ⟨n, rfl⟩ : ∃ n, m = n + 1 := ⟨m - 1, by omega⟩
  have key : (∀ i, 1 ≤ i → i < n + 1 → ∃ e, fn i = Except.error e) →
      (retryGo fn d 1 (n + 1)).1 = some (fn (n + 1)) ∧
        (retryGo fn d 1 (n + 1)).2.1 = n + 1 := by
    intro hfail
    have h := retryGo_last fn d n 1 (fun i h1 h2 => hfail i h1 (by omega))
    rwa [show 1 + n = n + 1 from by omega] at h
  constructor
  · intro a hfail hok
    have h := key hfail
    rw [hok] at h
    exact h
  · intro e hfail herr
    have h := key hfail
    rw [herr] at h
    exact h

/-- C6 witness: an operation failing retryably on attempts 1 and 2 and
succeeding on attempt 3 yields the success after exactly 3 attempts. -/
theorem retryWithBackoff_policy_witness :
    (retryWithBackoff retryDemoFn 3 1000).1 = some (Except.ok 7) ∧
      (retryWithBackoff retryDemoFn 3 1000).2.1 = 3 :=
  (retryWithBackoff_policy retryDemoFn 3 1000 (by decide)).1 7
    (fun i h1 h2 => ⟨0, by simp [retryDemoFn, show i ≤ 2 by omega]⟩)
    (by decide)

/-- C7: over a finite page sequence whose every page carries a data array
and a `hasNext` flag that is true before the last page and false on it,
`getAllPatients` requests pages 1, 2, … with the maximum allowed page size
and returns exactly the concatenation of the pages' data arrays in page
order. -/
theorem getAllPatients_concat {α : Type} (ds : List (List α))
    (pages : ℕ → PageResponse α) (hne : ds ≠ [])
    (hp : ∀ i, i < ds.length →
      pages (1 + i) = ⟨some (ds.getD i []), some ⟨decide (i + 1 < ds.length)⟩⟩) :
    getAllPatients pages ds.length =
      some (ds.flatten, (List.range ds.length).map fun i => (1 + i, MAX_LIMIT)) := by
  have h := getAllPatientsGo_run pages ds 1 [] [] hp hne
  simpa [getAllPatients] using h

/-- C7 witness: the two-page mock server yields the concatenation of its
two data arrays, requested as pages 1 and 2 with limit 20. -/
theorem getAllPatients_concat_witness :
    getAllPatients twoPages twoPagesData.length =
      some (twoPagesData.flatten,
        (List.range twoPagesData.length).map fun i => (1 + i, MAX_LIMIT)) :=
  getAllPatients_concat twoPagesData twoPages (by decide) (by decide)

/-- C8 counterexample: the claim says a segment with non-numeric characters
such as "150abc" makes the input invalid, but JS `parseFloat` reads the
numeric prefix, so "150abc/90" parses as the valid pair (150, 90). -/
theorem parseBloodPressure_prefix_counterexample :
    parseBloodPressure (.str "150abc/90") =
      some (.fin ⟨150, 0⟩, .fin ⟨90, 0⟩) := by decide

/-- C8 (amended): a two-segment blood-pressure string is invalid when
either segment has no `parseFloat`-readable prefix at all — neither a
decimal numeral nor a signed `Infinity` literal, so `parseFloat` yields
NaN; a segment that merely carries trailing non-numeric characters after a
readable prefix parses as that prefix (so `150abc` reads as 150 and
`Infinity` as the infinite reading, both of which can be valid). -/
theorem parseBloodPressure_nan_segment (s : String) (p1 p2 : List Char)
    (hsplit : splitSlash (jsTrim s).data = [p1, p2])
    (hbad : jsParseFloat ⟨p1⟩ = none ∨ jsParseFloat ⟨p2⟩ = none) :
    parseBloodPressure (.str s) = none := by
  simp only [parseBloodPressure]
  split
  · rfl
  · split
    · rfl
    · rw [hsplit]
      rcases hbad with hb | hb
      · simp [hb]
      · cases h1 : jsParseFloat ⟨p1⟩ <;> simp [h1, hb]

/-- C8 witness: a segment with no numeric prefix at all is invalid. -/
theorem parseBloodPressure_nan_segment_witness :
    parseBloodPressure (.str "abc/90") = none :=
  parseBloodPressure_nan_segment "abc/90" ['a', 'b', 'c'] ['9', '0']
    (by decide) (Or.inl (by decide))

/-- C9: whenever the trimmed string form of a field parses to the number
`q`, the temperature parser and the age parser give that string exactly the
result they give the number `q` itself — numeric input and its string form
are treated identically. -/
theorem parse_num_string_agree (q : JSNum) (s : String)
    (h : jsParseFloat (jsTrim s) = some (JSFloat.fin q)) :
    parseTemperature (.str s) = parseTemperature (.num q) ∧
      parseAge (.str s) = parseAge (.num q) := by
  obtain ⟨h1, h2, h3⟩ := jsParseFloat_ne_reserved h
  constructor <;> simp [parseTemperature, parseAge, h, h1, h2, h3]

/-- C9 witness: `98.6` and `"98.6"` parse to the same valid temperature. -/
theorem parse_num_string_agree_witness :
    (parseTemperature (.str "98.6") = parseTemperature (.num ⟨986, 1⟩) ∧
      parseAge (.str "98.6") = parseAge (.num ⟨986, 1⟩)) ∧
    parseTemperature (.str "98.6") = some (.fin ⟨986, 1⟩) :=
  ⟨parse_num_string_agree ⟨986, 1⟩ "98.6" (by decide), by decide⟩

/-- C10: a successful page response without a pagination object ends the
traversal normally after contributing its records (if any); a successful
page response whose data field is absent or not an array contributes no
records and raises no error — the traversal continues to the next page or
stops according to `pagination.hasNext`. -/
theorem getAllPatients_missing_fields {α : Type} (pages : ℕ → PageResponse α)
    (k fuel : ℕ) (acc : List α) (reqs : List (ℕ × ℕ)) :
    ((pages k).pagination = none →
      getAllPatientsGo pages k acc reqs (fuel + 1) =
        some (acc ++ ((pages k).data.getD []), reqs ++ [(k, MAX_LIMIT)])) ∧
    ((pages k).data = none → ∀ pg, (pages k).pagination = some pg →
      (pg.hasNext = true →
        getAllPatientsGo pages k acc reqs (fuel + 1) =
          getAllPatientsGo pages (k + 1) acc (reqs ++ [(k, MAX_LIMIT)]) fuel) ∧
      (pg.hasNext = false →
        getAllPatientsGo pages k acc reqs (fuel + 1) =
          some (acc, reqs ++ [(k, MAX_LIMIT)]))) := by
  constructor
  · intro hpg
    cases hd : (pages k).data <;>
      simp [getAllPatientsGo, hd, hpg, getPatientsLimit, MAX_LIMIT]
  · intro hd pg hpg
    constructor <;> intro hn <;>
      simp [getAllPatientsGo, hd, hpg, hn, getPatientsLimit, MAX_LIMIT]

/-- C10 witness: on the mock server `oddPages`, page 1 (no data array,
`hasNext` true) contributes nothing and the traversal continues; page 2 (no
pagination object) is treated as the last page. -/
theorem getAllPatients_missing_fields_witness :
    getAllPatientsGo oddPages 2 ([] : List ℕ) [(1, 20)] 1 =
      some ([7], [(1, 20), (2, 20)]) ∧
    getAllPatientsGo oddPages 1 ([] : List ℕ) [] 2 =
      getAllPatientsGo oddPages 2 ([] : List ℕ) [(1, 20)] 1 :=
  ⟨by
    have h := (getAllPatients_missing_fields oddPages 2 0 ([] : List ℕ)
      [(1, 20)]).1 (by decide)
    simpa [oddPages, MAX_LIMIT] using h,
   by
    have h := ((getAllPatients_missing_fields oddPages 1 1 ([] : List ℕ)
      []).2 (by decide) ⟨true⟩ (by decide)).1 rfl
    simpa [MAX_LIMIT] using h⟩
